import Mathlib

/-!
Shallow embedding of the resilience/plugin core of the scanner repository
(src/scanner/security/circuit_breaker.py, rate_limiter.py, audit_log.py,
timeout.py and src/scanner/plugin_loader/__init__.py), with theorems checking
the natural-language specification against it.

Conventions of the embedding:
* Python floats that carry monotonic or wall-clock readings, token counts and
  timeouts become rationals (`ℚ`), so every comparison stays decidable.
* The monotonic clock is passed in explicitly: a method that reads
  `time.monotonic()` takes the reading `now` as an argument.
* Methods that mutate `self` become functions returning the updated record.
* `asyncio` locks serialise the method bodies in the source; each embedded
  function is the body that runs under the lock, so lock handling drops out.
-/

namespace Scanner

/-! ## Circuit breaker (src/scanner/security/circuit_breaker.py) -/

/-- `CircuitState` enum. The Python member `OPEN` is spelled `opened` because
`open` is a Lean keyword. -/
inductive CircuitState where
  | closed
  | opened
  | halfOpen
deriving DecidableEq, Repr

/-- The mutable fields and configuration of `CircuitBreaker` (the `name`
string and the lock are omitted: no claim mentions them). -/
structure CircuitBreaker where
  failure_threshold : ℕ
  success_threshold : ℕ
  recovery_timeout : ℚ
  state : CircuitState
  failure_count : ℕ
  success_count : ℕ
  last_failure_time : ℚ
deriving DecidableEq, Repr

namespace CircuitBreaker

/-- `CircuitBreaker._transition_to`: set the new state; reset both counters
when entering CLOSED, reset `success_count` when entering HALF_OPEN, and
change nothing else when entering OPEN. -/
def transition_to (cb : CircuitBreaker) (new_state : CircuitState) : CircuitBreaker :=
  match new_state with
  | .closed => { cb with state := new_state, failure_count := 0, success_count := 0 }
  | .halfOpen => { cb with state := new_state, success_count := 0 }
  | .opened => { cb with state := new_state }

/-- `CircuitBreaker.can_execute`, with the `time.monotonic()` reading passed
as `now`.  Returns the boolean result together with the updated breaker. -/
def can_execute (cb : CircuitBreaker) (now : ℚ) : Bool × CircuitBreaker :=
  match cb.state with
  | .closed => (true, cb)
  | .opened =>
      if now - cb.last_failure_time ≥ cb.recovery_timeout then
        (true, transition_to cb .halfOpen)
      else
        (false, cb)
  | .halfOpen => (true, cb)

/-- `CircuitBreaker.record_success`. -/
def record_success (cb : CircuitBreaker) : CircuitBreaker :=
  let cb := { cb with failure_count := 0 }
  if cb.state = .halfOpen then
    let cb := { cb with success_count := cb.success_count + 1 }
    if cb.success_count ≥ cb.success_threshold then transition_to cb .closed else cb
  else cb

/-- `CircuitBreaker.record_failure`, with the `time.monotonic()` reading
passed as `now`. -/
def record_failure (cb : CircuitBreaker) (now : ℚ) : CircuitBreaker :=
  let cb := { cb with last_failure_time := now }
  if cb.state = .halfOpen then
    transition_to cb .opened
  else if cb.state = .closed then
    let cb := { cb with failure_count := cb.failure_count + 1 }
    if cb.failure_count ≥ cb.failure_threshold then transition_to cb .opened else cb
  else cb

/-- Outcome of `CircuitBreaker.execute`: the distinguished
`CircuitBreakerError`, a normal return, or a re-raised downstream exception. -/
inductive ExecResult (ε α : Type) where
  | breakerError : ExecResult ε α
  | ok : α → ExecResult ε α
  | err : ε → ExecResult ε α
deriving DecidableEq, Repr

/-- `CircuitBreaker.execute`.  The wrapped call's behaviour is supplied as a
value `r : Except ε α` (normal return or raised exception); the returned
`Bool` records whether the wrapped function was invoked at all.  `now` is the
clock reading inside `can_execute`, `now2` the (later) reading inside
`record_failure`. -/
def execute {ε α : Type} (cb : CircuitBreaker) (now now2 : ℚ) (r : Except ε α) :
    ExecResult ε α × CircuitBreaker × Bool :=
  match can_execute cb now with
  | (allowed, cb1) =>
    if allowed then
      match r with
      | .ok a => (.ok a, record_success cb1, true)
      | .error e => (.err e, record_failure cb1 now2, true)
    else
      (.breakerError, cb1, false)

end CircuitBreaker

end Scanner

open Scanner Scanner.CircuitBreaker

/-- A concrete breaker in HALF_OPEN with one recorded success, for the
theorems about claim C1. -/
def cbHalf : CircuitBreaker :=
  { failure_threshold := 5, success_threshold := 3, recovery_timeout := 30,
    state := .halfOpen, failure_count := 0, success_count := 1,
    last_failure_time := 0 }

/-- A concrete breaker that tripped OPEN at monotonic time 0, for the
theorems about claim C2. -/
def cbOpen : CircuitBreaker :=
  { failure_threshold := 5, success_threshold := 3, recovery_timeout := 30,
    state := .opened, failure_count := 5, success_count := 0,
    last_failure_time := 0 }

/-- Claim C1 (counterexample): from HALF_OPEN with `success_count = 1`, a
single `record_failure` does NOT reset `success_count` to 0 —
`_transition_to(OPEN)` resets no counter, so the count stays 1. -/
theorem record_failure_halfOpen_keeps_success_count :
    ¬ ((record_failure cbHalf 5).success_count = 0) := by
  decide

/-- Claim C1 (amended): from HALF_OPEN, one `record_failure` at monotonic time
`now` transitions the breaker to OPEN and sets `last_failure_time := now`,
leaving every other field — in particular `success_count` — unchanged
(`success_count` is only zeroed later, on the OPEN→HALF_OPEN transition). -/
theorem record_failure_halfOpen_spec (cb : CircuitBreaker) (now : ℚ)
    (hs : cb.state = .halfOpen) :
    record_failure cb now =
      { cb with state := .opened, last_failure_time := now } := by
  simp [record_failure, transition_to, hs]

/-- Witness for `record_failure_halfOpen_spec` at a concrete breaker. -/
theorem record_failure_halfOpen_spec_witness :
    record_failure cbHalf 5 =
      { cbHalf with state := .opened, last_failure_time := 5 } :=
  record_failure_halfOpen_spec cbHalf 5 rfl

/-- Claim C6: `execute` yields the distinguished `CircuitBreakerError`
outcome — without invoking the wrapped function — exactly when `can_execute`
returns FALSE, and in that case records no failure (the breaker is left as
`can_execute` left it); otherwise it invokes the function and, on normal
return, records a success and returns the result, while on an exception it
records a failure and re-raises that same exception. -/
theorem execute_spec {ε α : Type} (cb : CircuitBreaker) (now now2 : ℚ)
    (r : Except ε α) :
    ((execute cb now now2 r).1 = ExecResult.breakerError ↔
      (can_execute cb now).1 = false) ∧
    ((execute cb now now2 r).2.2 = true ↔ (can_execute cb now).1 = true) ∧
    ((can_execute cb now).1 = false →
      execute cb now now2 r =
        (ExecResult.breakerError, (can_execute cb now).2, false)) ∧
    (∀ a : α, (can_execute cb now).1 = true → r = Except.ok a →
      execute cb now now2 r =
        (ExecResult.ok a, record_success (can_execute cb now).2, true)) ∧
    (∀ e : ε, (can_execute cb now).1 = true → r = Except.error e →
      execute cb now now2 r =
        (ExecResult.err e, record_failure (can_execute cb now).2 now2, true)) := by
  rcases h : can_execute cb now with ⟨allowed, cb1⟩
  cases allowed <;> cases r <;> simp [execute, h]

/-- Claim C2: for a breaker in OPEN, `can_execute` at monotonic time `now`
returns FALSE (and changes nothing) while `now - last_failure_time <
recovery_timeout`, and once `now - last_failure_time ≥ recovery_timeout` the
same call transitions the breaker to HALF_OPEN (zeroing `success_count`) and
returns TRUE, admitting that request. -/
theorem can_execute_open_spec (cb : CircuitBreaker) (now : ℚ)
    (hs : cb.state = .opened) :
    (now - cb.last_failure_time < cb.recovery_timeout →
      can_execute cb now = (false, cb)) ∧
    (cb.recovery_timeout ≤ now - cb.last_failure_time →
      can_execute cb now = (true, { cb with state := .halfOpen, success_count := 0 })) := by
  constructor
  · intro h
    simp [can_execute, hs, not_le.mpr h]
  · intro h
    simp [can_execute, hs, h, transition_to]

/-- Witness for `can_execute_open_spec`: `cbOpen` checked at time 10 (inside
the recovery window, so the first conjunct's premise holds concretely). -/
theorem can_execute_open_spec_witness :
    (((10 : ℚ) - cbOpen.last_failure_time < cbOpen.recovery_timeout →
      can_execute cbOpen 10 = (false, cbOpen)) ∧
     (cbOpen.recovery_timeout ≤ 10 - cbOpen.last_failure_time →
      can_execute cbOpen 10 =
        (true, { cbOpen with state := .halfOpen, success_count := 0 }))) :=
  can_execute_open_spec cbOpen 10 rfl

namespace Scanner

/-! ## Token bucket (src/scanner/security/rate_limiter.py) -/

/-- The fields of `TokenBucket` (the lock is omitted; `consume` below is the
body that runs under it). -/
structure TokenBucket where
  capacity : ℚ
  rate : ℚ
  tokens : ℚ
  last_update : ℚ
deriving DecidableEq, Repr

namespace TokenBucket

/-- `TokenBucket.__post_init__`: a bucket is created full, with `last_update`
the monotonic reading taken at construction. -/
def create (capacity rate now : ℚ) : TokenBucket :=
  { capacity := capacity, rate := rate, tokens := capacity, last_update := now }

/-- `TokenBucket._refill` at monotonic time `now`:
`tokens := min(capacity, tokens + elapsed * rate)`, `last_update := now`. -/
def refill (b : TokenBucket) (now : ℚ) : TokenBucket :=
  { b with
    tokens := min b.capacity (b.tokens + (now - b.last_update) * b.rate),
    last_update := now }

/-- `TokenBucket.consume` at monotonic time `now`: refill, then either
decrement and return TRUE or leave the refilled amount and return FALSE. -/
def consume (b : TokenBucket) (now : ℚ) (tokens : ℚ) : Bool × TokenBucket :=
  let b := refill b now
  if b.tokens ≥ tokens then
    (true, { b with tokens := b.tokens - tokens })
  else
    (false, b)

/-- One observable operation on a bucket: a `consume(n)` call or the refill
step that `wait_for_tokens` performs under the lock, each tagged with the
monotonic reading it observes. -/
inductive BucketOp where
  | consume (now n : ℚ)
  | refill (now : ℚ)
deriving DecidableEq, Repr

/-- Run a sequence of operations against a bucket, discarding the boolean
results. -/
def run (b : TokenBucket) : List BucketOp → TokenBucket
  | [] => b
  | .consume now n :: ops => run (consume b now n).2 ops
  | .refill now :: ops => run (refill b now) ops

/-- A trace is valid when its clock readings never run backwards (monotonic
clock, starting from the bucket's `last_update`) and every requested amount
is nonnegative. -/
def ValidOps : ℚ → List BucketOp → Prop
  | _, [] => True
  | t, .consume now n :: ops => t ≤ now ∧ 0 ≤ n ∧ ValidOps now ops
  | t, .refill now :: ops => t ≤ now ∧ ValidOps now ops

theorem refill_capacity (b : TokenBucket) (now : ℚ) :
    (refill b now).capacity = b.capacity := rfl

theorem refill_rate (b : TokenBucket) (now : ℚ) :
    (refill b now).rate = b.rate := rfl

theorem refill_last_update (b : TokenBucket) (now : ℚ) :
    (refill b now).last_update = now := rfl

theorem refill_bounds (b : TokenBucket) (now : ℚ) (hr : 0 ≤ b.rate)
    (hm : b.last_update ≤ now) (h0 : 0 ≤ b.tokens) (hc : b.tokens ≤ b.capacity) :
    0 ≤ (refill b now).tokens ∧ (refill b now).tokens ≤ b.capacity := by
  constructor
  · exact le_min (h0.trans hc)
      (add_nonneg h0 (mul_nonneg (sub_nonneg.mpr hm) hr))
  · exact min_le_left _ _

theorem consume_fields (b : TokenBucket) (now n : ℚ) :
    (consume b now n).2.capacity = b.capacity ∧
    (consume b now n).2.rate = b.rate ∧
    (consume b now n).2.last_update = now := by
  simp only [consume]
  split <;> exact ⟨rfl, rfl, rfl⟩

theorem consume_bounds (b : TokenBucket) (now n : ℚ) (hr : 0 ≤ b.rate)
    (hm : b.last_update ≤ now) (hn : 0 ≤ n)
    (h0 : 0 ≤ b.tokens) (hc : b.tokens ≤ b.capacity) :
    0 ≤ (consume b now n).2.tokens ∧ (consume b now n).2.tokens ≤ b.capacity := by
  obtain ⟨hr0, hrc⟩ := refill_bounds b now hr hm h0 hc
  simp only [consume]
  split
  · rename_i hge
    exact ⟨sub_nonneg.mpr hge, by simpa using (sub_le_self _ hn).trans hrc⟩
  · exact ⟨hr0, hrc⟩

theorem run_invariant : ∀ (ops : List BucketOp) (b : TokenBucket),
    0 ≤ b.rate → 0 ≤ b.tokens → b.tokens ≤ b.capacity →
    ValidOps b.last_update ops →
    0 ≤ (run b ops).tokens ∧ (run b ops).tokens ≤ (run b ops).capacity
  | [], b, _, h0, hc, _ => ⟨h0, hc⟩
  | .consume now n :: ops, b, hr, h0, hc, hv => by
      obtain ⟨hm, hn, hv'⟩ := hv
      obtain ⟨h0', hc'⟩ := consume_bounds b now n hr hm hn h0 hc
      obtain ⟨hcap, hrate, hlast⟩ := consume_fields b now n
      exact run_invariant ops (consume b now n).2 (by rw [hrate]; exact hr) h0'
        (by rw [hcap]; exact hc') (by rw [hlast]; exact hv')
  | .refill now :: ops, b, hr, h0, hc, hv => by
      obtain ⟨hm, hv'⟩ := hv
      obtain ⟨h0', hc'⟩ := refill_bounds b now hr hm h0 hc
      exact run_invariant ops (refill b now) hr h0'
        (by rw [refill_capacity]; exact hc') (by rw [refill_last_update]; exact hv')

end TokenBucket

end Scanner

open Scanner.TokenBucket

/-- Claim C3: a bucket created with positive capacity and rate satisfies
`0 ≤ tokens ≤ capacity` after every valid trace of `consume(n)` calls
(`n ≥ 0`) interleaved with refills; since the trace is arbitrary, the
invariant holds after each operation of any run. -/
theorem tokenBucket_invariant (capacity rate t0 : ℚ) (ops : List BucketOp)
    (hcap : 0 < capacity) (hrate : 0 < rate) (hops : ValidOps t0 ops) :
    0 ≤ (run (create capacity rate t0) ops).tokens ∧
    (run (create capacity rate t0) ops).tokens ≤
      (run (create capacity rate t0) ops).capacity :=
  run_invariant ops (create capacity rate t0) hrate.le hcap.le le_rfl hops

/-- Witness for `tokenBucket_invariant`: capacity 10, rate 2, a consume that
succeeds, a refill, and an oversized consume that fails. -/
theorem tokenBucket_invariant_witness :
    0 ≤ (run (create 10 2 0)
          [BucketOp.consume 1 3, BucketOp.refill 2, BucketOp.consume 2 100]).tokens ∧
    (run (create 10 2 0)
          [BucketOp.consume 1 3, BucketOp.refill 2, BucketOp.consume 2 100]).tokens ≤
      (run (create 10 2 0)
          [BucketOp.consume 1 3, BucketOp.refill 2, BucketOp.consume 2 100]).capacity :=
  tokenBucket_invariant 10 2 0 _ (by norm_num) (by norm_num)
    (by norm_num [ValidOps])

/-- A drained bucket (0 tokens left, capacity 10, rate 2, last refilled at
monotonic time 0), for the theorems about claim C4. -/
def bDrained : TokenBucket :=
  { capacity := 10, rate := 2, tokens := 0, last_update := 0 }

/-- Claim C4 (counterexample): `consume(0)` does return TRUE, but it is not
true that it leaves `tokens` unmodified — the refill step runs first, so on a
drained bucket five seconds later `consume(0)` raises `tokens` from 0 to 10. -/
theorem consume_zero_modifies_tokens :
    (consume bDrained 5 0).1 = true ∧
    ¬ ((consume bDrained 5 0).2.tokens = bDrained.tokens) := by
  constructor
  · norm_num [bDrained, consume, refill]
  · norm_num [bDrained, consume, refill]

/-- Claim C4 (amended): `consume(n)` first refills
(`tokens := min(capacity, tokens + elapsed * rate)`), then returns TRUE and
decrements the refilled amount by exactly `n` when it is `≥ n`, and otherwise
returns FALSE leaving the refilled amount untouched; `consume(0)` returns
TRUE without decrementing — its only effect on `tokens` is the refill itself,
so when no time has elapsed `tokens` is literally unchanged. -/
theorem tokenBucket_consume_spec (b : TokenBucket) (now n : ℚ)
    (hm : b.last_update ≤ now) (hr : 0 ≤ b.rate) (h0 : 0 ≤ b.tokens)
    (hc : b.tokens ≤ b.capacity) (_hn : 0 ≤ n) :
    (n ≤ (refill b now).tokens →
      consume b now n =
        (true, { refill b now with tokens := (refill b now).tokens - n })) ∧
    ((refill b now).tokens < n →
      consume b now n = (false, refill b now)) ∧
    consume b now 0 = (true, refill b now) ∧
    (now = b.last_update → (refill b now).tokens = b.tokens) := by
  refine ⟨?_, ?_, ?_, ?_⟩
  · intro h
    simp only [consume]
    split
    · rfl
    · rename_i hlt
      exact absurd h hlt
  · intro h
    simp only [consume]
    split
    · rename_i hge
      exact absurd hge (not_le.mpr h)
    · rfl
  · have h0' := (refill_bounds b now hr hm h0 hc).1
    simp only [consume]
    split
    · simp
    · rename_i hlt
      exact absurd h0' hlt
  · intro he
    simp [refill, he, min_eq_right hc]

/-- Witness for `tokenBucket_consume_spec`: a full bucket of capacity 10 and
rate 2, consuming 3 tokens one second after creation. -/
def bWit4 : TokenBucket := create 10 2 0

/-- Witness for `tokenBucket_consume_spec` at `bWit4`, `now = 1`, `n = 3`. -/
theorem tokenBucket_consume_spec_witness :
    ((3 : ℚ) ≤ (refill bWit4 1).tokens →
      consume bWit4 1 3 =
        (true, { refill bWit4 1 with tokens := (refill bWit4 1).tokens - 3 })) ∧
    ((refill bWit4 1).tokens < 3 →
      consume bWit4 1 3 = (false, refill bWit4 1)) ∧
    consume bWit4 1 0 = (true, refill bWit4 1) ∧
    ((1 : ℚ) = bWit4.last_update → (refill bWit4 1).tokens = bWit4.tokens) :=
  tokenBucket_consume_spec bWit4 1 3 (by norm_num [bWit4, create])
    (by norm_num [bWit4, create]) (by norm_num [bWit4, create])
    (by norm_num [bWit4, create]) (by norm_num)

namespace Scanner

/-! ## Sandbox import policy (src/scanner/plugin_loader/__init__.py) -/

namespace Sandbox

/-- `Sandbox.ALLOWED_MODULES` (a Python set; a list here — only membership
is ever used). -/
def ALLOWED_MODULES : List String :=
  ["httpx", "requests", "json", "re", "asyncio", "datetime", "hashlib",
   "base64", "urllib.parse", "socket", "ssl", "struct", "binascii"]

/-- `module_name.split(".")[0]`: the first element of a split on `"."` is
exactly the prefix of the name up to the first dot (the whole name when it
has no dot). -/
def base_module (module_name : String) : String :=
  String.mk (module_name.data.takeWhile (fun c => c != '.'))

/-- `Sandbox.check_import`: the full name is allowed, or its base module is. -/
def check_import (module_name : String) : Bool :=
  if ALLOWED_MODULES.contains module_name then
    true
  else
    ALLOWED_MODULES.contains (base_module module_name)

end Sandbox

end Scanner

open Scanner.Sandbox

/-- Claim C9: `check_import(n)` returns TRUE iff `n` is in `ALLOWED_MODULES`
or the prefix of `n` up to the first `.` is; in particular
`check_import("httpx") = TRUE`, `check_import("urllib.parse") = TRUE`,
`check_import("os") = FALSE` and `check_import("os.path") = FALSE`. -/
theorem check_import_spec :
    (∀ n : String, check_import n = true ↔
      (n ∈ ALLOWED_MODULES ∨ base_module n ∈ ALLOWED_MODULES)) ∧
    check_import "httpx" = true ∧
    check_import "urllib.parse" = true ∧
    check_import "os" = false ∧
    check_import "os.path" = false := by
  refine ⟨fun n => ?_, by decide, by decide, by decide, by decide⟩
  unfold check_import
  split
  · rename_i h
    simp only [true_iff]
    exact Or.inl (by simpa using h)
  · rename_i h
    simp only [List.contains, List.elem_iff] at h ⊢
    tauto

namespace Scanner

/-! ## Association-list model of Python dicts (shared helpers).

A Python `dict` is modelled as a `List (String × α)` in insertion order:
lookup scans for the key, assignment updates in place or appends, deletion
removes the binding. -/

/-- `d.get(k)` / `k in d` (via `Option.isSome`). -/
def assocLookup {α : Type} : List (String × α) → String → Option α
  | [], _ => none
  | (k', v) :: rest, k => if k' = k then some v else assocLookup rest k

/-- `d[k] = v`: overwrite the existing binding in place, else append. -/
def assocSet {α : Type} : List (String × α) → String → α → List (String × α)
  | [], k, v => [(k, v)]
  | (k', v') :: rest, k, v =>
      if k' = k then (k', v) :: rest else (k', v') :: assocSet rest k v

/-- `del d[k]`: drop the binding for `k`. -/
def assocErase {α : Type} : List (String × α) → String → List (String × α)
  | [], _ => []
  | (k', v') :: rest, k =>
      if k' = k then rest else (k', v') :: assocErase rest k

theorem assocLookup_assocSet {α : Type} (m : List (String × α)) (k : String) (v : α) :
    assocLookup (assocSet m k v) k = some v := by
  induction m with
  | nil => simp [assocLookup, assocSet]
  | cons hd tl ih =>
      obtain ⟨k', v'⟩ := hd
      by_cases h : k' = k <;> simp [assocLookup, assocSet, h, ih]

/-! ## Timeout controller (src/scanner/security/timeout.py) -/

/-- `TimeoutConfig`. -/
structure TimeoutConfig where
  connect : ℚ
  read : ℚ
  total : ℚ
deriving DecidableEq, Repr

/-- `TimeoutController`: a default config plus the per-key override map. -/
structure TimeoutController where
  default_config : TimeoutConfig
  custom_timeouts : List (String × TimeoutConfig)
deriving DecidableEq, Repr

namespace TimeoutController

/-- `TimeoutController.set_timeout`. -/
def set_timeout (tc : TimeoutController) (key : String) (config : TimeoutConfig) :
    TimeoutController :=
  { tc with custom_timeouts := assocSet tc.custom_timeouts key config }

/-- `TimeoutController.get_timeout`.  The Python guard is
`if key and key in self._custom_timeouts`: `key` of `None` or `""` is falsy,
so the map is consulted only for a non-empty key. -/
def get_timeout (tc : TimeoutController) (key : Option String) : TimeoutConfig :=
  match key with
  | some k =>
      if k ≠ "" then
        match assocLookup tc.custom_timeouts k with
        | some config => config
        | none => tc.default_config
      else tc.default_config
  | none => tc.default_config

/-- The deadline `execute_with_timeout` hands to `asyncio.wait_for`: the
`timeout` argument when supplied, else `get_timeout(key).total`. -/
def effective_timeout (tc : TimeoutController) (timeout : Option ℚ)
    (key : Option String) : ℚ :=
  match timeout with
  | some t => t
  | none => (get_timeout tc key).total

end TimeoutController

end Scanner

open Scanner.TimeoutController

/-- Claim C10: an override stored under the empty-string key is unreachable.
`set_timeout("", cfg)` does store the binding, but `get_timeout("")` tests
the key for truthiness before the map lookup and therefore returns the
default config, so `execute_with_timeout(work, timeout=None, key="")` uses
the default config's `total` as its deadline. -/
theorem timeout_empty_key_unreachable (tc : Scanner.TimeoutController)
    (cfg : Scanner.TimeoutConfig) :
    Scanner.assocLookup (set_timeout tc "" cfg).custom_timeouts "" = some cfg ∧
    get_timeout (set_timeout tc "" cfg) (some "") = tc.default_config ∧
    effective_timeout (set_timeout tc "" cfg) none (some "") =
      tc.default_config.total := by
  refine ⟨Scanner.assocLookup_assocSet _ _ _, ?_, ?_⟩ <;>
    simp [get_timeout, effective_timeout, set_timeout]

namespace Scanner

/-! ## Plugin loader (src/scanner/plugin_loader/__init__.py)

The filesystem is modelled as an association list from path to the file's
observable content: its bytes (for hashing) and what executing it as a module
yields.  `hashlib.md5` itself is not re-implemented; the loader is
parametrised by an arbitrary digest function `md5fn` over the file's bytes —
every claim about the loader depends only on comparing stored digests with
recomputed ones. -/

/-- `PluginInfo`.  The Python attribute `instance` is spelled `inst`
(`instance` is a Lean keyword); it holds the name of the registered class. -/
structure PluginInfo where
  plugin_id : String
  name : String
  plugin_type : String
  file_path : String
  md5 : String
  enabled : Bool
  metadata : List (String × String)
  inst : Option String
deriving DecidableEq, Repr

/-- What loading a plugin source file can observe: its raw bytes, whether
executing the module raises, the module's `__vuln_info__` mapping (if any),
and the public classes exposing a `verify` attribute in `dir()` order. -/
structure PyFile where
  bytes : List ℕ
  exec_raises : Bool
  vuln_info : Option (List (String × String))
  verify_classes : List String
deriving DecidableEq, Repr

/-- The two plugin directories' contents, path → file. -/
abbrev FileSystem := List (String × PyFile)

/-- `pathlib.Path(path).stem`: final path component without its last
suffix. -/
def stem (path : String) : String :=
  let base := (String.mk (path.data.reverse.takeWhile (fun c => c != '/'))).data.reverse
  let ext := base.reverse.takeWhile (fun c => c != '.')
  if ext.length = base.length then String.mk base
  else String.mk (base.take (base.length - ext.length - 1))

/-- `PluginLoader`'s state relevant to the vuln-plugin registry: the
`plugin_id → PluginInfo` mapping and whether a reload callback is set. -/
structure PluginLoader where
  plugins : List (String × PluginInfo)
  has_reload_callback : Bool
deriving DecidableEq, Repr

namespace PluginLoader

/-- `PluginLoader._load_vuln_plugin`.  Returns `none` when the call raises
(unreadable file or an exception while executing the module), otherwise
`some (loaded?, new state)`.  Mirrors the source order: hash first, then the
same-MD5 dedupe check, then module execution, the `__vuln_info__` check, the
`verify`-class scan, and finally the registry overwrite. -/
def load_vuln_plugin (md5fn : List ℕ → String) (fs : FileSystem)
    (L : PluginLoader) (path : String) : Option (Bool × PluginLoader) :=
  match assocLookup fs path with
  | none => none
  | some file =>
    let md5 := md5fn file.bytes
    let plugin_id := stem path
    let already : Bool :=
      match assocLookup L.plugins plugin_id with
      | some info => info.md5 == md5
      | none => false
    if already then
      some (false, L)
    else if file.exec_raises then
      none
    else
      match file.vuln_info with
      | none => some (false, L)
      | some vinfo =>
        let info : PluginInfo :=
          { plugin_id := plugin_id,
            name := (assocLookup vinfo "name").getD plugin_id,
            plugin_type := "vuln",
            file_path := path,
            md5 := md5,
            enabled := true,
            metadata := vinfo,
            inst := file.verify_classes.head? }
        some (true, { L with plugins := assocSet L.plugins plugin_id info })

/-- `PluginLoader.reload_plugin`.  Returns `none` when `_load_vuln_plugin`
raises, otherwise `some (reloaded?, new state, callback invocations)` — the
last component lists each argument the reload callback is called with. -/
def reload_plugin (md5fn : List ℕ → String) (fs : FileSystem)
    (L : PluginLoader) (plugin_id : String) :
    Option (Bool × PluginLoader × List String) :=
  match assocLookup L.plugins plugin_id with
  | none => some (false, L, [])
  | some info =>
    match assocLookup fs info.file_path with
    | none => some (false, { L with plugins := assocErase L.plugins plugin_id }, [])
    | some _ =>
      match load_vuln_plugin md5fn fs L info.file_path with
      | none => none
      | some (true, L') =>
          some (true, L', if L.has_reload_callback then [plugin_id] else [])
      | some (false, L') => some (false, L', [])

end PluginLoader

end Scanner

open Scanner.PluginLoader

/-- Claim C5: reloading a registered plugin whose file's MD5 still equals the
stored digest is a no-op: `reload_plugin` returns FALSE, the loader state —
in particular `PluginInfo.md5` — is unchanged, and the reload callback is
never invoked. -/
theorem reload_plugin_unchanged_md5 (md5fn : List ℕ → String)
    (fs : Scanner.FileSystem) (L : Scanner.PluginLoader) (plugin_id : String)
    (info : Scanner.PluginInfo) (file : Scanner.PyFile)
    (hreg : Scanner.assocLookup L.plugins plugin_id = some info)
    (hfile : Scanner.assocLookup fs info.file_path = some file)
    (hstem : Scanner.stem info.file_path = plugin_id)
    (hmd5 : md5fn file.bytes = info.md5) :
    reload_plugin md5fn fs L plugin_id = some (false, L, []) := by
  simp [reload_plugin, load_vuln_plugin, hreg, hfile, hstem, hmd5]

/-- A one-plugin loader and matching filesystem for the witness of
`reload_plugin_unchanged_md5`: `test.py` is registered, its stored MD5 equals
the digest of its current bytes, and a reload callback is set. -/
def infoTest : Scanner.PluginInfo :=
  { plugin_id := "test", name := "Test", plugin_type := "vuln",
    file_path := "plugins/vulns/test.py", md5 := "d41",
    enabled := true, metadata := [("name", "Test")], inst := some "X" }

/-- The file behind `infoTest`, see `reload_plugin_unchanged_md5_witness`. -/
def fileTest : Scanner.PyFile :=
  { bytes := [1, 2, 3], exec_raises := false,
    vuln_info := some [("name", "Test")], verify_classes := ["X"] }

/-- The loader state for `reload_plugin_unchanged_md5_witness`. -/
def loaderTest : Scanner.PluginLoader :=
  { plugins := [("test", infoTest)], has_reload_callback := true }

/-- The filesystem for `reload_plugin_unchanged_md5_witness`. -/
def fsTest : Scanner.FileSystem := [("plugins/vulns/test.py", fileTest)]

/-- Witness for `reload_plugin_unchanged_md5`: with a constant digest
function, reloading `"test"` is observably a no-op. -/
theorem reload_plugin_unchanged_md5_witness :
    reload_plugin (fun _ => "d41") fsTest loaderTest "test" =
      some (false, loaderTest, []) :=
  reload_plugin_unchanged_md5 (fun _ => "d41") fsTest loaderTest "test"
    infoTest fileTest (by decide) (by decide) (by decide) (by decide)

namespace Scanner

/-! ## Audit events (src/scanner/security/audit_log.py) -/

/-- `AuditEventType` enum (string-valued). -/
inductive AuditEventType where
  | login | logout | login_failed
  | task_create | task_start | task_stop | task_delete | task_complete | task_fail
  | scan_start | scan_stop | vuln_found
  | plugin_load | plugin_reload | plugin_error
  | config_change
  | system_start | system_stop | error
  | data_access | data_export | data_delete
deriving DecidableEq, Repr

/-- The enum member's `.value` string. -/
def AuditEventType.value : AuditEventType → String
  | .login => "login"
  | .logout => "logout"
  | .login_failed => "login_failed"
  | .task_create => "task_create"
  | .task_start => "task_start"
  | .task_stop => "task_stop"
  | .task_delete => "task_delete"
  | .task_complete => "task_complete"
  | .task_fail => "task_fail"
  | .scan_start => "scan_start"
  | .scan_stop => "scan_stop"
  | .vuln_found => "vuln_found"
  | .plugin_load => "plugin_load"
  | .plugin_reload => "plugin_reload"
  | .plugin_error => "plugin_error"
  | .config_change => "config_change"
  | .system_start => "system_start"
  | .system_stop => "system_stop"
  | .error => "error"
  | .data_access => "data_access"
  | .data_export => "data_export"
  | .data_delete => "data_delete"

/-- `AuditEventType(s)`: recover the enum member from its string value. -/
def AuditEventType.fromValue : String → Option AuditEventType
  | "login" => some .login
  | "logout" => some .logout
  | "login_failed" => some .login_failed
  | "task_create" => some .task_create
  | "task_start" => some .task_start
  | "task_stop" => some .task_stop
  | "task_delete" => some .task_delete
  | "task_complete" => some .task_complete
  | "task_fail" => some .task_fail
  | "scan_start" => some .scan_start
  | "scan_stop" => some .scan_stop
  | "vuln_found" => some .vuln_found
  | "plugin_load" => some .plugin_load
  | "plugin_reload" => some .plugin_reload
  | "plugin_error" => some .plugin_error
  | "config_change" => some .config_change
  | "system_start" => some .system_start
  | "system_stop" => some .system_stop
  | "error" => some .error
  | "data_access" => some .data_access
  | "data_export" => some .data_export
  | "data_delete" => some .data_delete
  | _ => none

theorem AuditEventType.fromValue_eventType_value (t : AuditEventType) :
    AuditEventType.fromValue t.value = some t := by
  cases t <;> rfl

/-- `AuditSeverity` enum (string-valued). -/
inductive AuditSeverity where
  | info | warning | error | critical
deriving DecidableEq, Repr

/-- The enum member's `.value` string. -/
def AuditSeverity.value : AuditSeverity → String
  | .info => "info"
  | .warning => "warning"
  | .error => "error"
  | .critical => "critical"

/-- `AuditSeverity(s)`: recover the enum member from its string value. -/
def AuditSeverity.fromValue : String → Option AuditSeverity
  | "info" => some .info
  | "warning" => some .warning
  | "error" => some .error
  | "critical" => some .critical
  | _ => none

theorem AuditSeverity.fromValue_severity_value (s : AuditSeverity) :
    AuditSeverity.fromValue s.value = some s := by
  cases s <;> rfl

/-- A `datetime.datetime` value as `datetime.utcnow()` produces it: UTC
wall-clock components at microsecond precision. -/
@[ext] structure DateTime where
  year : ℕ
  month : ℕ
  day : ℕ
  hour : ℕ
  minute : ℕ
  second : ℕ
  microsecond : ℕ
deriving DecidableEq, Repr

/-- The component bounds `datetime` itself enforces (loosened to the digit
widths the fixed-width rendering needs: `isoformat` prints the year on 4
digits, month through second on 2, microseconds on 6). -/
def DateTime.Valid (t : DateTime) : Prop :=
  t.year < 10000 ∧ t.month < 100 ∧ t.day < 100 ∧ t.hour < 100 ∧
    t.minute < 100 ∧ t.second < 100 ∧ t.microsecond < 1000000

/-- A JSON value, as `json.dumps`/`json.loads` see it.  A serialized event is
modelled by this parse-level representation of its single JSON line (the
`dumps`/`loads` pair is the identity on it). -/
inductive JsonVal where
  | null
  | bool (b : Bool)
  | num (n : ℤ)
  | str (s : String)
  | arr (elems : List JsonVal)
  | obj (fields : List (String × JsonVal))

/-- `AuditEvent`.  `details` is an arbitrary JSON-serializable dict. -/
structure AuditEvent where
  event_type : AuditEventType
  severity : AuditSeverity
  message : String
  user_id : Option String
  source_ip : Option String
  target : Option String
  details : List (String × JsonVal)
  timestamp : DateTime

end Scanner

namespace Scanner

/-! ## Audit logger (src/scanner/security/audit_log.py) -/

/-- `self._events_by_type[k] = self._events_by_type.get(k, 0) + 1`. -/
def bumpCount : List (String × ℕ) → String → List (String × ℕ)
  | [], k => [(k, 1)]
  | (k', v) :: rest, k =>
      if k' = k then (k', v + 1) :: rest else (k', v) :: bumpCount rest k

/-- `Σ events_by_type`: the sum of all per-type counters. -/
def sumByType (m : List (String × ℕ)) : ℕ :=
  (m.map Prod.snd).sum

theorem sumByType_bumpCount (m : List (String × ℕ)) (k : String) :
    sumByType (bumpCount m k) = sumByType m + 1 := by
  induction m with
  | nil => simp [bumpCount, sumByType]
  | cons hd tl ih =>
      obtain ⟨k', v⟩ := hd
      by_cases h : k' = k <;> simp [bumpCount, sumByType, h] <;>
        simp [sumByType] at ih <;> omega

/-- The arguments of one `AuditLogger.log` call, together with the
`datetime.utcnow()` reading the constructed event receives. -/
structure LogRequest where
  event_type : AuditEventType
  message : String
  severity : AuditSeverity
  user_id : Option String
  source_ip : Option String
  target : Option String
  details : Option (List (String × JsonVal))
  timestamp : DateTime

/-- The `AuditEvent(...)` constructed at the top of `AuditLogger.log`
(`details=details or {}`). -/
def mkEvent (r : LogRequest) : AuditEvent :=
  { event_type := r.event_type, severity := r.severity, message := r.message,
    user_id := r.user_id, source_ip := r.source_ip, target := r.target,
    details := r.details.getD [], timestamp := r.timestamp }

/-- `AuditLogger` state: the registered filters and sink handlers (a handler
may raise; its error is swallowed), the statistics counters, and the events
appended to the write path (console/file) so far. -/
structure AuditLogger where
  filters : List (AuditEvent → Bool)
  handlers : List (AuditEvent → Except String Unit)
  event_count : ℕ
  events_by_type : List (String × ℕ)
  written : List AuditEvent

/-- `AuditLogger.__init__` with the given filters and handlers registered:
counters start at zero and nothing has been written. -/
def AuditLogger.init (filters : List (AuditEvent → Bool))
    (handlers : List (AuditEvent → Except String Unit)) : AuditLogger :=
  { filters := filters, handlers := handlers, event_count := 0,
    events_by_type := [], written := [] }

/-- `AuditLogger.log`: construct the event; if any registered filter rejects
it, drop it silently; otherwise bump the counters, call each sink handler
(the second component lists the event once per handler invocation, in
registration order; a handler's error changes nothing), and write the
event. -/
def AuditLogger.log (L : AuditLogger) (r : LogRequest) :
    AuditLogger × List AuditEvent :=
  let event := mkEvent r
  if L.filters.all (fun filter_func => filter_func event) then
    ({ L with
        event_count := L.event_count + 1,
        events_by_type := bumpCount L.events_by_type r.event_type.value,
        written := L.written ++ [event] },
     L.handlers.map (fun _ => event))
  else
    (L, [])

/-- A sequence of `log` calls. -/
def AuditLogger.runLog (L : AuditLogger) : List LogRequest → AuditLogger
  | [] => L
  | r :: rs => AuditLogger.runLog (L.log r).1 rs

theorem AuditLogger.log_filters (L : AuditLogger) (r : LogRequest) :
    (L.log r).1.filters = L.filters := by
  simp only [AuditLogger.log]
  split <;> rfl

theorem AuditLogger.log_counts (L : AuditLogger) (r : LogRequest)
    (h : L.filters.all (fun filter_func => filter_func (mkEvent r)) = true) :
    (L.log r).1.event_count = L.event_count + 1 ∧
    sumByType (L.log r).1.events_by_type = sumByType L.events_by_type + 1 := by
  simp [AuditLogger.log, h, sumByType_bumpCount]

theorem AuditLogger.runLog_counts : ∀ (rs : List LogRequest) (L : AuditLogger),
    (∀ r ∈ rs, L.filters.all (fun filter_func => filter_func (mkEvent r)) = true) →
    (L.runLog rs).event_count = L.event_count + rs.length ∧
    sumByType (L.runLog rs).events_by_type = sumByType L.events_by_type + rs.length
  | [], L, _ => by simp [AuditLogger.runLog]
  | r :: rs, L, h => by
      have hr := h r (by simp)
      have hrec := AuditLogger.runLog_counts rs (L.log r).1
        (fun r' hr' => by
          rw [AuditLogger.log_filters]
          exact h r' (by simp [hr']))
      obtain ⟨hc, hs⟩ := AuditLogger.log_counts L r hr
      obtain ⟨hc', hs'⟩ := hrec
      refine ⟨?_, ?_⟩
      · show ((L.log r).1.runLog rs).event_count = L.event_count + (rs.length + 1)
        rw [hc', hc]
        omega
      · show sumByType ((L.log r).1.runLog rs).events_by_type =
          sumByType L.events_by_type + (rs.length + 1)
        rw [hs', hs]
        omega

end Scanner

open Scanner.AuditLogger

/-- Claim C7: starting from a freshly initialised `AuditLogger`, after `N`
`log` calls none of which any filter rejected, `total_events = N` and the
per-type counters sum to `N`; and any single `log` call that some filter
rejects is dropped silently — the state (counters and written output) is
unchanged and no sink handler is invoked. -/
theorem auditLogger_stats (filters : List (Scanner.AuditEvent → Bool))
    (handlers : List (Scanner.AuditEvent → Except String Unit))
    (reqs : List Scanner.LogRequest)
    (hpass : ∀ r ∈ reqs,
      filters.all (fun filter_func => filter_func (Scanner.mkEvent r)) = true) :
    ((Scanner.AuditLogger.init filters handlers).runLog reqs).event_count =
      reqs.length ∧
    Scanner.sumByType
        ((Scanner.AuditLogger.init filters handlers).runLog reqs).events_by_type =
      reqs.length ∧
    (∀ (L : Scanner.AuditLogger) (r : Scanner.LogRequest),
      L.filters.all (fun filter_func => filter_func (Scanner.mkEvent r)) = false →
      L.log r = (L, [])) := by
  obtain ⟨hc, hs⟩ := Scanner.AuditLogger.runLog_counts reqs
    (Scanner.AuditLogger.init filters handlers) (fun r hr => hpass r hr)
  refine ⟨by simpa [Scanner.AuditLogger.init] using hc,
          by simpa [Scanner.AuditLogger.init, Scanner.sumByType] using hs,
          fun L r hfail => ?_⟩
  unfold Scanner.AuditLogger.log
  simp [hfail]

/-- A concrete two-request trace for `auditLogger_stats_witness`: a filter
that admits everything, one handler that succeeds and one that raises. -/
def reqsWit : List Scanner.LogRequest :=
  [{ event_type := .scan_start, message := "start", severity := .info,
     user_id := some "u", source_ip := none, target := some "t",
     details := none, timestamp := ⟨2024, 1, 2, 3, 4, 5, 0⟩ },
   { event_type := .vuln_found, message := "found", severity := .warning,
     user_id := none, source_ip := some "10.0.0.1", target := some "t",
     details := some [("vulnerable", Scanner.JsonVal.bool true)],
     timestamp := ⟨2024, 1, 2, 3, 4, 6, 7⟩ }]

/-- Witness for `auditLogger_stats`: both requests pass the always-true
filter, so both counters reach 2. -/
theorem auditLogger_stats_witness :
    ((Scanner.AuditLogger.init [fun _ => true]
        [fun _ => Except.ok (), fun _ => Except.error "sink down"]).runLog
          reqsWit).event_count = reqsWit.length ∧
    Scanner.sumByType
        ((Scanner.AuditLogger.init [fun _ => true]
            [fun _ => Except.ok (), fun _ => Except.error "sink down"]).runLog
              reqsWit).events_by_type = reqsWit.length ∧
    (∀ (L : Scanner.AuditLogger) (r : Scanner.LogRequest),
      L.filters.all (fun filter_func => filter_func (Scanner.mkEvent r)) = false →
      L.log r = (L, [])) :=
  auditLogger_stats [fun _ => true]
    [fun _ => Except.ok (), fun _ => Except.error "sink down"] reqsWit
    (fun r _ => by simp)

namespace Scanner

/-! ## Audit event JSON serialization (src/scanner/security/audit_log.py)

Strings are manipulated at the character level so that every step is
kernel-computable.  `datetime.isoformat()` prints
`YYYY-MM-DDTHH:MM:SS[.ffffff]`, omitting the microsecond block when it is
zero; the digits are produced by fixed-width zero-padded rendering. -/

/-- The ASCII digit character for `d` (meaningful for `d < 10`). -/
def digitChar (d : ℕ) : Char := Char.ofNat (48 + d)

/-- The numeric value of an ASCII digit character. -/
def digitVal (c : Char) : ℕ := c.toNat - 48

/-- Is `c` an ASCII digit? -/
def isDigitChar (c : Char) : Bool := 48 ≤ c.toNat && c.toNat ≤ 57

/-- Read a digit string as a base-10 number. -/
def readDigits (l : List Char) : ℕ :=
  l.foldl (fun acc c => 10 * acc + digitVal c) 0

/-- The characters of `t.isoformat()`. -/
def isochars (t : DateTime) : List Char :=
  digitChar (t.year / 1000 % 10) :: digitChar (t.year / 100 % 10) ::
  digitChar (t.year / 10 % 10) :: digitChar (t.year % 10) :: '-' ::
  digitChar (t.month / 10 % 10) :: digitChar (t.month % 10) :: '-' ::
  digitChar (t.day / 10 % 10) :: digitChar (t.day % 10) :: 'T' ::
  digitChar (t.hour / 10 % 10) :: digitChar (t.hour % 10) :: ':' ::
  digitChar (t.minute / 10 % 10) :: digitChar (t.minute % 10) :: ':' ::
  digitChar (t.second / 10 % 10) :: digitChar (t.second % 10) ::
  (if t.microsecond = 0 then []
   else '.' :: digitChar (t.microsecond / 100000 % 10) ::
        digitChar (t.microsecond / 10000 % 10) ::
        digitChar (t.microsecond / 1000 % 10) ::
        digitChar (t.microsecond / 100 % 10) ::
        digitChar (t.microsecond / 10 % 10) ::
        digitChar (t.microsecond % 10) :: [])

/-- `t.isoformat()` as a string. -/
def isoformat (t : DateTime) : String := String.mk (isochars t)

/-- `datetime.fromisoformat` restricted to the shapes `isoformat` emits:
`YYYY-MM-DDTHH:MM:SS` with an optional `.ffffff` microsecond block. -/
def parse_iso_chars : List Char → Option DateTime
  | y1 :: y2 :: y3 :: y4 :: s1 :: mo1 :: mo2 :: s2 :: d1 :: d2 :: s3 ::
    h1 :: h2 :: s4 :: mi1 :: mi2 :: s5 :: se1 :: se2 :: rest =>
      if s1 = '-' ∧ s2 = '-' ∧ s3 = 'T' ∧ s4 = ':' ∧ s5 = ':' ∧
         ([y1, y2, y3, y4, mo1, mo2, d1, d2, h1, h2, mi1, mi2, se1, se2].all
           isDigitChar) = true then
        let base : DateTime :=
          { year := readDigits [y1, y2, y3, y4], month := readDigits [mo1, mo2],
            day := readDigits [d1, d2], hour := readDigits [h1, h2],
            minute := readDigits [mi1, mi2], second := readDigits [se1, se2],
            microsecond := 0 }
        match rest with
        | [] => some base
        | p :: u1 :: u2 :: u3 :: u4 :: u5 :: u6 :: [] =>
            if p = '.' ∧ ([u1, u2, u3, u4, u5, u6].all isDigitChar) = true then
              some { base with microsecond := readDigits [u1, u2, u3, u4, u5, u6] }
            else none
        | _ => none
      else none
  | _ => none

/-- `datetime.fromisoformat` on a string. -/
def parse_iso (s : String) : Option DateTime := parse_iso_chars s.data

theorem digit_aux (m : ℕ) (h : m < 10) :
    digitVal (digitChar m) = m ∧ isDigitChar (digitChar m) = true := by
  interval_cases m <;> exact ⟨by decide, by decide⟩

theorem digitVal_digitChar (n : ℕ) : digitVal (digitChar (n % 10)) = n % 10 :=
  (digit_aux (n % 10) (Nat.mod_lt _ (by norm_num))).1

theorem isDigitChar_digitChar (n : ℕ) : isDigitChar (digitChar (n % 10)) = true :=
  (digit_aux (n % 10) (Nat.mod_lt _ (by norm_num))).2

theorem parse_isochars (t : DateTime) (h : t.Valid) :
    parse_iso_chars (isochars t) = some t := by
  obtain ⟨hy, hmo, hd, hh, hmi, hs, hu⟩ := h
  by_cases hms : t.microsecond = 0
  · simp only [isochars, hms, if_true, parse_iso_chars]
    rw [if_pos (by simp [List.all, isDigitChar_digitChar])]
    refine congrArg some ?_
    ext <;> simp [readDigits, digitVal_digitChar] <;> omega
  · simp only [isochars, hms, if_false, parse_iso_chars]
    rw [if_pos (by simp [List.all, isDigitChar_digitChar])]
    rw [if_pos (by simp [List.all, isDigitChar_digitChar])]
    refine congrArg some ?_
    ext <;> simp [readDigits, digitVal_digitChar] <;> omega

/-- `None ↦ null`, `str ↦ str`: how `json.dumps` treats the optional string
fields of the event dict. -/
def optStr : Option String → JsonVal
  | none => .null
  | some s => .str s

/-- `AuditEvent.to_dict`: the serialized field mapping, in source order. -/
def AuditEvent.to_dict (e : AuditEvent) : List (String × JsonVal) :=
  [("event_type", .str e.event_type.value),
   ("severity", .str e.severity.value),
   ("message", .str e.message),
   ("user_id", optStr e.user_id),
   ("source_ip", optStr e.source_ip),
   ("target", optStr e.target),
   ("details", .obj e.details),
   ("timestamp", .str (isoformat e.timestamp))]

/-- `AuditEvent.to_json`: `json.dumps(self.to_dict())`.  The single JSON
line is modelled by its parse-level value (`json.loads` of the line). -/
def AuditEvent.to_json (e : AuditEvent) : JsonVal := .obj e.to_dict

/-- Read a JSON string field. -/
def getStr : Option JsonVal → Option String
  | some (.str s) => some s
  | _ => none

/-- Read a JSON string-or-null field. -/
def getOptStr : Option JsonVal → Option (Option String)
  | some (.str s) => some (some s)
  | some .null => some none
  | _ => none

/-- Read a JSON object field. -/
def getObj : Option JsonVal → Option (List (String × JsonVal))
  | some (.obj fields) => some fields
  | _ => none

/-- Modelled from the spec: `AuditEvent.from_json` — "parsing the single-line
JSON serialization back into an event" — has no implementation under `src/`
(the source only provides `to_dict`/`to_json`); this is its spec-faithful
inverse: read each field of the JSON object back (enum members from their
string values, the timestamp via ISO-8601 parsing), failing on any missing
or ill-typed field. -/
def AuditEvent.from_json (j : JsonVal) : Option AuditEvent :=
  match j with
  | .obj fields => do
      let tyStr ← getStr (assocLookup fields "event_type")
      let ty ← AuditEventType.fromValue tyStr
      let sevStr ← getStr (assocLookup fields "severity")
      let sev ← AuditSeverity.fromValue sevStr
      let msg ← getStr (assocLookup fields "message")
      let uid ← getOptStr (assocLookup fields "user_id")
      let sip ← getOptStr (assocLookup fields "source_ip")
      let tgt ← getOptStr (assocLookup fields "target")
      let det ← getObj (assocLookup fields "details")
      let tsStr ← getStr (assocLookup fields "timestamp")
      let ts ← parse_iso tsStr
      some { event_type := ty, severity := sev, message := msg, user_id := uid,
             source_ip := sip, target := tgt, details := det, timestamp := ts }
  | _ => none

theorem getOptStr_optStr (u : Option String) :
    getOptStr (some (optStr u)) = some u := by
  cases u <;> rfl

end Scanner

open Scanner.AuditEvent

/-- Claim C8: `AuditEvent.from_json(AuditEvent.to_json(e)) = e` — every field
round-trips through the single-line JSON serialization, the ISO-8601
timestamp exactly (`DateTime.Valid` is the component bounds `datetime`
enforces on any value `utcnow()` can produce). -/
theorem audit_event_round_trip (e : Scanner.AuditEvent)
    (h : e.timestamp.Valid) :
    from_json (to_json e) = some e := by
  have hts : Scanner.parse_iso (Scanner.isoformat e.timestamp) =
      some e.timestamp := Scanner.parse_isochars e.timestamp h
  simp [from_json, to_json, to_dict, Scanner.assocLookup, Scanner.getStr,
    Scanner.getOptStr_optStr, Scanner.getObj, hts,
    Scanner.AuditEventType.fromValue_eventType_value,
    Scanner.AuditSeverity.fromValue_severity_value,
    Option.bind]

/-- A concrete event for `audit_event_round_trip_witness`. -/
def eventWit : Scanner.AuditEvent :=
  { event_type := .vuln_found, severity := .warning, message := "sqli hit",
    user_id := some "u1", source_ip := none, target := some "http target",
    details := [("vulnerable", Scanner.JsonVal.bool true),
                ("evidence", Scanner.JsonVal.null)],
    timestamp := ⟨2024, 6, 30, 23, 59, 58, 123456⟩ }

/-- Witness for `audit_event_round_trip` at `eventWit`. -/
theorem audit_event_round_trip_witness :
    from_json (to_json eventWit) = some eventWit :=
  audit_event_round_trip eventWit
    (by norm_num [Scanner.DateTime.Valid, eventWit])
